import Mathlib

/-!
Verification development for the request-pipeline layer of a Next.js chat
application: the error taxonomy and responder (`handleApiError`,
`getStatusCodeFromErrorCode`, `validators`, `withRetry`), the fixed-window and
sliding-window rate limiters, the rate-limiting middleware factory
(`createRateLimit`), and the handler wrapper (`createApiHandler`).

Timestamps (`Date.now()` values, `windowMs` durations, `resetTime`) are
modelled as `Int`, mirroring JavaScript integer arithmetic including possibly
negative differences.  Request counts are `Nat`.  JavaScript `Math.max(0, a-b)`
on naturals coincides with truncated `Nat` subtraction, which is used where the
source writes `Math.max(0, ...)`.  Thrown JavaScript values are modelled by the
inductive `Thrown`; `async` functions are modelled as pure functions (the
source performs no interleaving within one request).
-/

/-! ## Error taxonomy (source: error-handling utility, `ErrorCode` enum) -/

/-- The closed `ErrorCode` enumeration from the error-handling utility. -/
inductive ErrorCode where
  | UNAUTHORIZED
  | FORBIDDEN
  | SESSION_EXPIRED
  | VALIDATION_ERROR
  | INVALID_INPUT
  | MISSING_REQUIRED_FIELD
  | DATABASE_ERROR
  | RECORD_NOT_FOUND
  | DUPLICATE_ENTRY
  | EXTERNAL_API_ERROR
  | API_RATE_LIMITED
  | API_UNAVAILABLE
  | AI_ERROR
  | TOOL_EXECUTION_ERROR
  | INTERNAL_SERVER_ERROR
  | NETWORK_ERROR
  | TIMEOUT
  deriving DecidableEq, Repr

/-- The structured `details` payloads that the error-handling utility actually
attaches to `ApplicationError`s: the validator payloads (`{field, ...}`) and
the retry payload (`{attempts, lastError}`). -/
inductive ErrDetails where
  | fieldOnly (field : String)
  | fieldType (field : String) (expected : String) (received : String)
  | fieldMinLength (field : String) (minLength : Nat) (currentLength : Nat)
  | fieldMaxLength (field : String) (maxLength : Nat) (currentLength : Nat)
  | fieldValue (field : String) (value : String)
  | attempts (attempts : Nat) (lastError : String)
  deriving DecidableEq, Repr

/-- The `field` component of a details payload, when present. -/
def ErrDetails.fieldName : ErrDetails → Option String
  | .fieldOnly f => some f
  | .fieldType f _ _ => some f
  | .fieldMinLength f _ _ => some f
  | .fieldMaxLength f _ _ => some f
  | .fieldValue f _ => some f
  | .attempts _ _ => none

/-- Model of `ApplicationError` (source: `class ApplicationError extends Error`):
code, message, optional details, and the construction-time timestamp. The
optional `userId`/`requestId` fields are never set by the code under study and
are omitted. -/
structure ApplicationError where
  code : ErrorCode
  message : String
  details : Option ErrDetails
  timestamp : Int
  deriving DecidableEq, Repr

/-- Model of `getStatusCodeFromErrorCode` (source: the `switch` in the error-handling
utility).  Every constructor is covered explicitly; the source's `default`
arm is unreachable because the `switch` enumerates the whole enum. -/
def getStatusCodeFromErrorCode : ErrorCode → Nat
  | .UNAUTHORIZED => 401
  | .SESSION_EXPIRED => 401
  | .FORBIDDEN => 403
  | .RECORD_NOT_FOUND => 404
  | .VALIDATION_ERROR => 400
  | .INVALID_INPUT => 400
  | .MISSING_REQUIRED_FIELD => 400
  | .DUPLICATE_ENTRY => 409
  | .API_RATE_LIMITED => 429
  | .API_UNAVAILABLE => 503
  | .TIMEOUT => 408
  | .DATABASE_ERROR => 500
  | .EXTERNAL_API_ERROR => 500
  | .AI_ERROR => 500
  | .TOOL_EXECUTION_ERROR => 500
  | .INTERNAL_SERVER_ERROR => 500
  | .NETWORK_ERROR => 500

/-! ## Response model

Bodies are modelled per construction site: the api-utils JSON envelope
(`createErrorResponse`), the error responder's envelope (`handleApiError`),
the rate-limit middleware's 429 body, an empty body (`new Response(null)`),
and free-form text for domain handler responses. -/

/-- The `details` payloads passed by api-utils call sites: `null` (the explicit
`null` of the `UNAUTHORIZED` response), `{allowedMethods}`, `{requestId}`. -/
inductive UtilDetails where
  | nullD
  | allowedMethods (methods : List String)
  | reqId (id : String)
  deriving DecidableEq, Repr

/-- The `error` member of the api-utils `ApiResponse` envelope. -/
structure ApiErrorInfo where
  code : String
  message : String
  details : Option UtilDetails
  deriving DecidableEq, Repr

/-- The api-utils `ApiResponse` envelope `{success, error?, meta.timestamp}`
(the `data` member is absent on every error path modelled here). -/
structure ApiEnvelope where
  success : Bool
  error : Option ApiErrorInfo
  metaTimestamp : Int
  deriving DecidableEq, Repr

/-- The body `{error: {code, message, details?, timestamp}}` built by
`handleApiError`. -/
structure ErrBody where
  code : ErrorCode
  message : String
  details : Option ErrDetails
  timestamp : Int
  deriving DecidableEq, Repr

/-- A response body, one constructor per JSON shape the source constructs. -/
inductive Body where
  | empty
  | apiEnvelope (e : ApiEnvelope)
  | errEnvelope (e : ErrBody)
  | rateLimitBody (code : String) (message : String) (retryAfter : Int)
  | text (s : String)
  deriving DecidableEq, Repr

/-- A transport response: status, body, headers. -/
structure Response where
  status : Nat
  body : Body
  headers : List (String × String)
  deriving DecidableEq, Repr

/-- A thrown JavaScript value, as discriminated by the catch sites
(`instanceof Response`, `instanceof ApplicationError`, `instanceof Error`,
anything else). -/
inductive Thrown where
  | resp (r : Response)
  | appErr (e : ApplicationError)
  | err (message : String)
  | other
  deriving DecidableEq, Repr

/-- An inbound request: the parts of `NextRequest` the modelled code reads. -/
structure Request where
  method : String
  headers : List (String × String)
  deriving DecidableEq, Repr

/-! ## Fixed-window rate limiter (source: `RateLimiter`) -/

/-- One record of the in-memory store: `{count, resetTime}`. -/
structure RateLimitRecord where
  count : Nat
  resetTime : Int
  deriving DecidableEq, Repr

/-- The in-memory `Map` keyed by the caller-derived string, as an association
list with unique keys (maintained by `storeSet`). -/
def Store := List (String × RateLimitRecord)

instance : DecidableEq Store := inferInstanceAs (DecidableEq (List (String × RateLimitRecord)))

/-- The `Map.set` operation: replace the existing binding or append a fresh one. -/
def storeSet (s : Store) (k : String) (v : RateLimitRecord) : Store :=
  match s with
  | [] => [(k, v)]
  | (k', v') :: rest => if k' = k then (k, v) :: rest else (k', v') :: storeSet rest k v

/-- The `Map.get` operation. -/
def storeGet (s : Store) (k : String) : Option RateLimitRecord :=
  List.lookup k s

/-- Model of `cleanup()`: delete every record whose `resetTime` is strictly in the
past. -/
def cleanup (now : Int) (s : Store) : Store :=
  s.filter (fun kv => ! decide (kv.2.resetTime < now))

/-- Model of `RateLimitConfig` after the constructor has filled the defaults.  The
key-derivation function may throw (it is caller supplied), modelled by
`Except String`. -/
structure RateLimitConfig where
  windowMs : Int
  maxRequests : Nat
  skipSuccessfulRequests : Bool
  skipFailedRequests : Bool
  keyGenerator : Request → Except String String
  message : String

/-- The value returned by `RateLimiter.check`. -/
structure CheckResult where
  allowed : Bool
  remaining : Nat
  resetTime : Int
  deriving DecidableEq, Repr

/-- Model of `RateLimiter.check` (fixed window).  Runs `cleanup`, derives the key,
starts a fresh window when no record exists or the stored `resetTime` is in
the past, admits iff `count < maxRequests`, and writes the incremented record
back only on admission.  `remaining` is `Math.max(0, max - count - 1)`, which
on naturals is truncated subtraction.  The store (mutated by `cleanup` and the
write-back) is returned alongside the result; a throwing key generator escapes
after `cleanup` has already run, as in the source. -/
def RateLimiter.check (cfg : RateLimitConfig) (request : Request) (now : Int)
    (store : Store) : Except String CheckResult × Store :=
  let store1 := cleanup now store
  match cfg.keyGenerator request with
  | .error e => (.error e, store1)
  | .ok key =>
    let record : RateLimitRecord :=
      match storeGet store1 key with
      | some r => if r.resetTime < now then ⟨0, now + cfg.windowMs⟩ else r
      | none => ⟨0, now + cfg.windowMs⟩
    let allowed := decide (record.count < cfg.maxRequests)
    let remaining := cfg.maxRequests - record.count - 1
    if allowed then
      (.ok ⟨allowed, remaining, record.resetTime⟩,
        storeSet store1 key ⟨record.count + 1, record.resetTime⟩)
    else
      (.ok ⟨allowed, remaining, record.resetTime⟩, store1)

/-- JavaScript `Math.ceil(a / b)` for integers, `b > 0`: negated floor division of the
negation. -/
def jsCeilDiv (a b : Int) : Int := -((-a).fdiv b)

/-- Model of `RateLimiter.getHeaders`. -/
def RateLimiter.getHeaders (cfg : RateLimitConfig) (remaining : Nat)
    (resetTime : Int) : List (String × String) :=
  [("X-RateLimit-Limit", toString cfg.maxRequests),
   ("X-RateLimit-Remaining", toString remaining),
   ("X-RateLimit-Reset", toString (jsCeilDiv resetTime 1000)),
   ("X-RateLimit-Window", toString (jsCeilDiv cfg.windowMs 1000))]

/-- Model of `createRateLimit(limiter)`: the middleware.  On a rejected check it builds
the 429 response with `Retry-After` and the rate-limit headers; on an admitted
check it returns `new Response(null, { headers })` (status 200, empty body);
if the check throws it catches and returns `null` (`none`), letting the
request through. -/
def createRateLimit (cfg : RateLimitConfig) (request : Request) (now : Int)
    (store : Store) : Option Response × Store :=
  match RateLimiter.check cfg request now store with
  | (.error _, store') => (none, store')
  | (.ok c, store') =>
    let headers := RateLimiter.getHeaders cfg c.remaining c.resetTime
    if c.allowed then
      (some ⟨200, .empty, headers⟩, store')
    else
      let retryAfter := jsCeilDiv (c.resetTime - now) 1000
      (some ⟨429, .rateLimitBody "RATE_LIMITED" cfg.message retryAfter,
        ("Content-Type", "application/json") ::
        ("Retry-After", toString retryAfter) :: headers⟩, store')

/-! ## Sliding-window rate limiter (source: `SlidingWindowRateLimiter`) -/

/-- The per-key admission-timestamp lists, as an association list. -/
def SlidingStore := List (String × List Int)

instance : DecidableEq SlidingStore :=
  inferInstanceAs (DecidableEq (List (String × List Int)))

/-- The `Map.set` operation for the sliding store. -/
def slidingSet (s : SlidingStore) (k : String) (v : List Int) : SlidingStore :=
  match s with
  | [] => [(k, v)]
  | (k', v') :: rest => if k' = k then (k, v) :: rest else (k', v') :: slidingSet rest k v

/-- The value returned by `SlidingWindowRateLimiter.check`. -/
structure SlidingResult where
  allowed : Bool
  remaining : Nat
  deriving DecidableEq, Repr

/-- Model of `SlidingWindowRateLimiter.check`: keep only timestamps strictly newer than
`now - windowMs`, admit iff fewer than `maxRequests` remain, append `now` (and
write back) only on admission.  `remaining` is
`Math.max(0, max - len - (allowed ? 1 : 0))`, truncated `Nat` subtraction. -/
def SlidingWindowRateLimiter.check (cfg : RateLimitConfig) (request : Request)
    (now : Int) (store : SlidingStore) : Except String SlidingResult × SlidingStore :=
  match cfg.keyGenerator request with
  | .error e => (.error e, store)
  | .ok key =>
    let windowStart := now - cfg.windowMs
    let requests := ((List.lookup key store).getD []).filter
      (fun t => decide (windowStart < t))
    let allowed := decide (requests.length < cfg.maxRequests)
    let remaining := cfg.maxRequests - requests.length - (if allowed then 1 else 0)
    if allowed then
      (.ok ⟨allowed, remaining⟩, slidingSet store key (requests ++ [now]))
    else
      (.ok ⟨allowed, remaining⟩, store)

/-! ## api-utils: responses, auth, method validation, handler wrapper -/

/-- Model of `createErrorResponse(code, message, details, status)`: the uniform error
envelope with `success: false` and `meta.timestamp` set to the current time. -/
def createErrorResponse (code : String) (message : String)
    (details : Option UtilDetails) (status : Nat) (now : Int) : Response :=
  ⟨status, .apiEnvelope ⟨false, some ⟨code, message, details⟩, now⟩, []⟩

/-- The identity resolved from session state. -/
structure SessionUser where
  id : String
  email : String
  name : String
  image : String
  deriving DecidableEq, Repr

/-- Model of `getAuthenticatedUser`: returns the session's user, or `null` when there
is no session (or the session lookup throws — caught inside). The session
store itself is external; its outcome is the `session` argument. -/
def getAuthenticatedUser (session : Option SessionUser) : Option SessionUser :=
  session

/-- Model of `requireAuth`: throws the 401 `UNAUTHORIZED` envelope (with explicit
`null` details) when no identity resolves. -/
def requireAuth (session : Option SessionUser) (now : Int) :
    Except Response SessionUser :=
  match getAuthenticatedUser session with
  | none => .error (createErrorResponse "UNAUTHORIZED" "Authentication required"
      (some .nullD) 401 now)
  | some u => .ok u

/-- Model of `validateMethod`: throws a 405 `METHOD_NOT_ALLOWED` envelope listing the
permitted methods when the request's method is absent from the allow list. -/
def validateMethod (request : Request) (allowedMethods : List String)
    (now : Int) : Except Response Unit :=
  if allowedMethods.contains request.method then .ok ()
  else .error (createErrorResponse "METHOD_NOT_ALLOWED"
    ("Method " ++ request.method ++ " not allowed. Allowed methods: " ++
      String.intercalate ", " allowedMethods)
    (some (.allowedMethods allowedMethods)) 405 now)

/-- The `options` object accepted by `createApiHandler`.  The rate limiter is
the middleware function `(request) => Promise<Response | null>`. -/
structure HandlerOptions where
  requireAuth : Bool
  allowedMethods : Option (List String)
  rateLimiter : Option (Request → Option Response)

/-- The context `{params, user}` passed to the domain handler. -/
structure HandlerContext where
  params : Option (List (String × String))
  user : Option SessionUser

/-- Model of `createApiHandler(handler, options)`: the wrapped handler.  In order:
method validation (throws a `Response`), the rate-limit middleware (any
non-null result is returned at once), auth resolution (`requireAuth` throws a
`Response`; otherwise the possibly-null identity is attached), then the domain
handler.  The catch returns a thrown `Response` as-is, converts any thrown
`Error` (which includes `ApplicationError`) to a 500 `INTERNAL_SERVER_ERROR`
envelope carrying its message and the request id, and anything else to a
generic 500. -/
def createApiHandler
    (handler : Request → HandlerContext → Except Thrown Response)
    (options : HandlerOptions) (request : Request)
    (params : Option (List (String × String))) (session : Option SessionUser)
    (requestId : String) (now : Int) : Response :=
  let methodStep : Except Response Unit :=
    match options.allowedMethods with
    | some ms => validateMethod request ms now
    | none => .ok ()
  let rateLimitStep : Option Response :=
    match options.rateLimiter with
    | some rl => rl request
    | none => none
  let authStep : Except Response (Option SessionUser) :=
    if options.requireAuth then
      match requireAuth session now with
      | .ok u => .ok (some u)
      | .error r => .error r
    else .ok (getAuthenticatedUser session)
  let run : Except Thrown Response :=
    match methodStep with
    | .error r => .error (.resp r)
    | .ok _ =>
      match rateLimitStep with
      | some r => .ok r
      | none =>
        match authStep with
        | .error r => .error (.resp r)
        | .ok user => handler request ⟨params, user⟩
  match run with
  | .ok r => r
  | .error (.resp r) => r
  | .error (.appErr e) =>
    createErrorResponse "INTERNAL_SERVER_ERROR" e.message (some (.reqId requestId)) 500 now
  | .error (.err m) =>
    createErrorResponse "INTERNAL_SERVER_ERROR" m (some (.reqId requestId)) 500 now
  | .error .other =>
    createErrorResponse "INTERNAL_SERVER_ERROR" "An unexpected error occurred"
      (some (.reqId requestId)) 500 now

/-! ## Error responder (source: `handleApiError`) -/

/-- Test that `l` begins with `p`. -/
def startsWithChars : List Char → List Char → Bool
  | [], _ => true
  | _ :: _, [] => false
  | p :: ps, c :: cs => p == c && startsWithChars ps cs

/-- Test that `pat` occurs contiguously inside `l` (`String.prototype.includes`). -/
def hasSub (pat : List Char) : List Char → Bool
  | [] => pat.isEmpty
  | c :: cs => startsWithChars pat (c :: cs) || hasSub pat cs

/-- JavaScript `s.includes(pat)`. -/
def strContains (s pat : String) : Bool := hasSub pat.data s.data

/-- Model of `handleApiError`: a typed `ApplicationError` is converted via
`getStatusCodeFromErrorCode` with the body echoing its own code, message,
details and timestamp; an untyped `Error` is classified by message substring —
the database heuristic (status 500) first, then the network/timeout heuristic
(status 503, hardcoded in the source) — before falling back to a 500
`INTERNAL_SERVER_ERROR` carrying the error's message; a non-`Error` value
yields the generic 500. -/
def handleApiError (error : Thrown) (now : Int) : Response :=
  match error with
  | .appErr e =>
    ⟨getStatusCodeFromErrorCode e.code,
      .errEnvelope ⟨e.code, e.message, e.details, e.timestamp⟩, []⟩
  | .err msg =>
    if strContains msg "relation" && strContains msg "does not exist" then
      ⟨500, .errEnvelope ⟨.DATABASE_ERROR,
        "Database table does not exist. Please run migrations.", none, now⟩, []⟩
    else if strContains msg "timeout" || strContains msg "ECONNREFUSED" then
      ⟨503, .errEnvelope ⟨.NETWORK_ERROR,
        "Network connection failed. Please try again.", none, now⟩, []⟩
    else
      ⟨500, .errEnvelope ⟨.INTERNAL_SERVER_ERROR, msg, none, now⟩, []⟩
  | .resp _ =>
    ⟨500, .errEnvelope ⟨.INTERNAL_SERVER_ERROR, "An unexpected error occurred",
      none, now⟩, []⟩
  | .other =>
    ⟨500, .errEnvelope ⟨.INTERNAL_SERVER_ERROR, "An unexpected error occurred",
      none, now⟩, []⟩

/-! ## Validators (source: the `validators` object of the error-handling
utility).  The regular expressions are embedded by their matching semantics as
executable character-list predicates. -/

/-- JavaScript `\s` (the `RegExp` whitespace class). -/
def isJsSpace (c : Char) : Bool :=
  let n := c.toNat
  (9 ≤ n && n ≤ 13) || n == 32 || n == 160 || n == 5760 ||
  (8192 ≤ n && n ≤ 8202) || n == 8232 || n == 8233 || n == 8239 ||
  n == 8287 || n == 12288 || n == 65279

/-- Test that `l` contains a `'.'` somewhere other than its last position:
equivalently, `l` splits as `b ++ ['.'] ++ c` with `c` nonempty once some
prefix `b` is fixed. -/
def dotNotLast : List Char → Bool
  | [] => false
  | [_] => false
  | c :: rest => (c == '.' && ! rest.isEmpty) || dotNotLast rest

/-- Test that `l` splits as `b ++ ['.'] ++ c` with `b` and `c` both nonempty. -/
def hasInnerDot : List Char → Bool
  | [] => false
  | _ :: rest => dotNotLast rest

/-- The test of `/^[^\s@]+@[^\s@]+\.[^\s@]+$/`: the string splits at its
single `@` into a nonempty local part and a domain part, neither containing
whitespace or `@`, and the domain splits at some inner dot into two nonempty
halves. -/
def emailRegexTest (s : String) : Bool :=
  match s.data.splitOn '@' with
  | [a, d] =>
    ! a.isEmpty && a.all (fun c => ! isJsSpace c) &&
    d.all (fun c => ! isJsSpace c) && hasInnerDot d
  | _ => false

/-- Hexadecimal digit, case-insensitive (the regexes carry the `i` flag). -/
def isHexDigit (c : Char) : Bool :=
  ('0' ≤ c && c ≤ '9') || ('a' ≤ c && c ≤ 'f') || ('A' ≤ c && c ≤ 'F')

/-- First element satisfies `p` (false on the empty list). -/
def headIs (p : Char → Bool) : List Char → Bool
  | [] => false
  | c :: _ => p c

/-- Shared shape of the RFC-4122 pattern `8-4-4-4-12` hex with a variant
nibble in `[89ab]` (case-insensitive), parameterised by the test on the
version nibble. -/
def uuidShape (versionOk : Char → Bool) (s : String) : Bool :=
  match s.data.splitOn '-' with
  | [a, b, c, d, e] =>
    a.length == 8 && a.all isHexDigit &&
    b.length == 4 && b.all isHexDigit &&
    c.length == 4 && c.all isHexDigit && headIs versionOk c &&
    d.length == 4 && d.all isHexDigit &&
    headIs (fun v => v == '8' || v == '9' || v == 'a' || v == 'b' ||
      v == 'A' || v == 'B') d &&
    e.length == 12 && e.all isHexDigit
  | _ => false

/-- The test of
`/^[0-9a-f]{8}-[0-9a-f]{4}-[1-5][0-9a-f]{3}-[89ab][0-9a-f]{3}-[0-9a-f]{12}$/i`:
version nibble in `[1-5]`. -/
def uuidRegexTest (s : String) : Bool :=
  uuidShape (fun v => v == '1' || v == '2' || v == '3' || v == '4' || v == '5') s

/-- A well-formed RFC-4122 version-4 UUID string (stated from the claim's
words, for comparison with `uuidRegexTest`): the same shape with the version
nibble fixed to `4`. -/
def isRfc4122v4 (s : String) : Bool :=
  uuidShape (fun v => v == '4') s

/-- Model of `validators.email`: raises a `VALIDATION_ERROR` `ApplicationError`
carrying `{field, value}` when the regex rejects; returns no value on
success. -/
def validators.email (value : String) (fieldName : String) (now : Int) :
    Except ApplicationError Unit :=
  if emailRegexTest value then .ok ()
  else .error ⟨.VALIDATION_ERROR, fieldName ++ " must be a valid email address",
    some (.fieldValue fieldName value), now⟩

/-- Model of `validators.uuid`: raises a `VALIDATION_ERROR` `ApplicationError`
carrying `{field, value}` when the regex rejects; returns no value on
success. -/
def validators.uuid (value : String) (fieldName : String) (now : Int) :
    Except ApplicationError Unit :=
  if uuidRegexTest value then .ok ()
  else .error ⟨.VALIDATION_ERROR, fieldName ++ " must be a valid UUID",
    some (.fieldValue fieldName value), now⟩

/-! ## Retry helper (source: `withRetry`) -/

/-- The observable trace of one `withRetry` run: the returned value or thrown
error, the number of invocations of `operation`, and the back-off waits (in
order) performed between attempts. -/
structure RetryTrace (α : Type) where
  result : Except Thrown α
  calls : Nat
  waits : List Int
  deriving Repr

/-- The loop of `withRetry`.  `operation` is modelled as a function from the
(1-based) attempt number to that invocation's outcome.  The fuel counts the
remaining loop iterations (`maxRetries - attempt + 1`); exhausting it without
an in-loop throw models the trailing `throw lastError!` (reachable only when
`maxRetries = 0`, where `lastError` is still `undefined`). -/
def withRetryGo {α : Type} (op : Nat → Except String α) (maxRetries : Nat)
    (delay : Int) (now : Int) :
    Nat → Nat → Nat → List Int → Option String → RetryTrace α
  | _, 0, calls, waits, last =>
    ⟨.error (match last with | some m => .err m | none => .other), calls, waits⟩
  | attempt, fuel + 1, calls, waits, _ =>
    match op attempt with
    | .ok v => ⟨.ok v, calls + 1, waits⟩
    | .error msg =>
      if attempt = maxRetries then
        ⟨.error (.appErr ⟨.EXTERNAL_API_ERROR,
          "Operation failed after " ++ toString maxRetries ++ " attempts: " ++ msg,
          some (.attempts maxRetries msg), now⟩), calls + 1, waits⟩
      else
        withRetryGo op maxRetries delay now (attempt + 1) fuel (calls + 1)
          (waits ++ [delay * 2 ^ (attempt - 1)]) (some msg)

/-- Model of `withRetry(operation, maxRetries, delay)`, starting at attempt 1. -/
def withRetry {α : Type} (op : Nat → Except String α) (maxRetries : Nat)
    (delay : Int) (now : Int) : RetryTrace α :=
  withRetryGo op maxRetries delay now 1 maxRetries 0 [] none


/-! ## Theorems -/

/-- C4: the kind-to-status mapping is total and assigns exactly the statuses
of the §4.2 table (Unauthorized and SessionExpired to 401, Forbidden to 403,
RecordNotFound to 404, the validation kinds to 400, DuplicateEntry to 409,
RateLimited to 429, Timeout to 408, ApiUnavailable to 503, and the
DatabaseError / ExternalApiError / AiError / ToolExecutionError /
InternalServerError / NetworkError group to 500); and for every
`ApplicationError` the responder returns a response with that status whose
body `{error: {code, message, details?, timestamp}}` carries the error's own
code, message, details and timestamp. -/
theorem c4_status_mapping_and_responder :
    (getStatusCodeFromErrorCode .UNAUTHORIZED = 401 ∧
     getStatusCodeFromErrorCode .SESSION_EXPIRED = 401 ∧
     getStatusCodeFromErrorCode .FORBIDDEN = 403 ∧
     getStatusCodeFromErrorCode .RECORD_NOT_FOUND = 404 ∧
     getStatusCodeFromErrorCode .VALIDATION_ERROR = 400 ∧
     getStatusCodeFromErrorCode .INVALID_INPUT = 400 ∧
     getStatusCodeFromErrorCode .MISSING_REQUIRED_FIELD = 400 ∧
     getStatusCodeFromErrorCode .DUPLICATE_ENTRY = 409 ∧
     getStatusCodeFromErrorCode .API_RATE_LIMITED = 429 ∧
     getStatusCodeFromErrorCode .API_UNAVAILABLE = 503 ∧
     getStatusCodeFromErrorCode .TIMEOUT = 408 ∧
     getStatusCodeFromErrorCode .DATABASE_ERROR = 500 ∧
     getStatusCodeFromErrorCode .EXTERNAL_API_ERROR = 500 ∧
     getStatusCodeFromErrorCode .AI_ERROR = 500 ∧
     getStatusCodeFromErrorCode .TOOL_EXECUTION_ERROR = 500 ∧
     getStatusCodeFromErrorCode .INTERNAL_SERVER_ERROR = 500 ∧
     getStatusCodeFromErrorCode .NETWORK_ERROR = 500) ∧
    ∀ (e : ApplicationError) (now : Int),
      handleApiError (Thrown.appErr e) now =
        ⟨getStatusCodeFromErrorCode e.code,
          Body.errEnvelope ⟨e.code, e.message, e.details, e.timestamp⟩, []⟩ :=
  ⟨by decide, fun _ _ => rfl⟩

/-- C5 counterexample: on the untyped error `"Request timeout"` the responder
does classify as `NETWORK_ERROR`, but the response status is 503, not the 500
the §4.2 table assigns to NetworkError; and an untyped message containing
`"timeout"` that also matches the database heuristic is classified
`DATABASE_ERROR`, not `NETWORK_ERROR`. -/
theorem c5_counterexample :
    (handleApiError (Thrown.err "Request timeout") 0).status = 503 ∧
    ¬ (handleApiError (Thrown.err "Request timeout") 0).status = 500 ∧
    (handleApiError (Thrown.err "Request timeout") 0).body =
      Body.errEnvelope ⟨.NETWORK_ERROR,
        "Network connection failed. Please try again.", none, 0⟩ ∧
    (handleApiError
        (Thrown.err "timeout: relation \x22chats\x22 does not exist") 0).body =
      Body.errEnvelope ⟨.DATABASE_ERROR,
        "Database table does not exist. Please run migrations.", none, 0⟩ := by
  refine ⟨rfl, by decide, rfl, rfl⟩

/-- C5 (amended): for every untyped runtime `Error` whose message contains
`"timeout"` or `"ECONNREFUSED"` and does not also match the database
heuristic (`"relation"` together with `"does not exist"`), `handleApiError`
classifies it as `NETWORK_ERROR` rather than falling back to
`INTERNAL_SERVER_ERROR`, and the resulting response carries status 503
(hardcoded in that branch), not the 500 of the §4.2 table. -/
theorem c5_network_heuristic (msg : String) (now : Int)
    (hdb : ¬ (strContains msg "relation" = true ∧
              strContains msg "does not exist" = true))
    (hnet : strContains msg "timeout" = true ∨
            strContains msg "ECONNREFUSED" = true) :
    handleApiError (Thrown.err msg) now =
      ⟨503, Body.errEnvelope ⟨.NETWORK_ERROR,
        "Network connection failed. Please try again.", none, now⟩, []⟩ := by
  have h1 : (strContains msg "relation" && strContains msg "does not exist") = false := by
    cases hr : strContains msg "relation" <;>
      cases hd : strContains msg "does not exist" <;> simp_all
  have h2 : (strContains msg "timeout" || strContains msg "ECONNREFUSED") = true := by
    rcases hnet with h | h <;> simp [h]
  simp [handleApiError, h1, h2]

/-- C5 witness: the amended theorem applied to the concrete message
`"connect ECONNREFUSED 127.0.0.1:5432"`. -/
theorem c5_network_heuristic_witness :
    handleApiError (Thrown.err "connect ECONNREFUSED 127.0.0.1:5432") 7 =
      ⟨503, Body.errEnvelope ⟨.NETWORK_ERROR,
        "Network connection failed. Please try again.", none, 7⟩, []⟩ :=
  c5_network_heuristic "connect ECONNREFUSED 127.0.0.1:5432" 7
    (by decide) (by decide)

/-- C6: `withRetry` with `maxRetries = 3` on an operation that fails on every
invocation performs exactly 3 invocations, waits `delay * 2^(attempt-1)`
between attempts (so `delay * 2^0` then `delay * 2^1`), and raises an
`EXTERNAL_API_ERROR` `ApplicationError` wrapping the last failure whose
details carry `attempts = 3`. -/
theorem c6_withRetry_always_fails {α : Type} (op : Nat → Except String α)
    (delay now : Int) (h : ∀ n, ∃ m, op n = Except.error m) :
    ∃ m3, op 3 = Except.error m3 ∧
      withRetry op 3 delay now =
        ⟨.error (.appErr ⟨.EXTERNAL_API_ERROR,
            "Operation failed after 3 attempts: " ++ m3,
            some (.attempts 3 m3), now⟩),
          3, [delay * 2 ^ (0 : Nat), delay * 2 ^ (1 : Nat)]⟩ := by
  obtain ⟨m1, h1⟩ := h 1
  obtain ⟨m2, h2⟩ := h 2
  obtain ⟨m3, h3⟩ := h 3
  have hs : ("Operation failed after " ++ toString (3 : Nat) ++ " attempts: ")
      = "Operation failed after 3 attempts: " := by decide
  exact ⟨m3, h3, by simp [withRetry, withRetryGo, h1, h2, h3, hs]⟩

/-- C6 witness: the theorem applied to the operation that always fails with
`"boom"`. -/
theorem c6_withRetry_always_fails_witness :
    withRetry (fun _ => (Except.error "boom" : Except String Nat)) 3 1000 5 =
      ⟨.error (.appErr ⟨.EXTERNAL_API_ERROR,
          "Operation failed after 3 attempts: boom",
          some (.attempts 3 "boom"), 5⟩),
        3, [1000 * 2 ^ (0 : Nat), 1000 * 2 ^ (1 : Nat)]⟩ := by
  obtain ⟨m3, hm, he⟩ := c6_withRetry_always_fails
    (fun _ => (Except.error "boom" : Except String Nat)) 1000 5
    (fun _ => ⟨"boom", rfl⟩)
  have hb : m3 = "boom" := by simpa using hm.symm
  rw [hb] at he
  exact he

/-- C10: if the configured limiter's check throws during middleware
evaluation (here: a throwing key-derivation function, the only fallible step
of `check`/`getHeaders`), the middleware returned by `createRateLimit`
catches the exception and returns `null`, and the wrapped request proceeds
exactly as if no rate limiter had been configured — the failure is never
converted into a client-visible error response. -/
theorem c10_rate_limit_fails_open (cfg : RateLimitConfig) (request : Request)
    (now : Int) (store : Store) (e : String)
    (h : cfg.keyGenerator request = Except.error e) :
    (createRateLimit cfg request now store).1 = none ∧
    ∀ (handler : Request → HandlerContext → Except Thrown Response)
      (ra : Bool) (ams : Option (List String))
      (params : Option (List (String × String)))
      (session : Option SessionUser) (requestId : String),
      createApiHandler handler
          ⟨ra, ams, some (fun r => (createRateLimit cfg r now store).1)⟩
          request params session requestId now =
        createApiHandler handler ⟨ra, ams, none⟩ request params session
          requestId now := by
  have h1 : (createRateLimit cfg request now store).1 = none := by
    simp [createRateLimit, RateLimiter.check, h]
  refine ⟨h1, ?_⟩
  intro handler ra ams params session requestId
  simp [createApiHandler, h1]

/-- C10 witness: the theorem applied to a limiter whose key generator throws
`"boom"` on every request. -/
theorem c10_rate_limit_fails_open_witness :
    (createRateLimit ⟨60000, 100, false, false, fun _ => Except.error "boom",
        "Too many requests, please try again later."⟩
      ⟨"GET", []⟩ 0 []).1 = none :=
  (c10_rate_limit_fails_open
    ⟨60000, 100, false, false, fun _ => Except.error "boom",
      "Too many requests, please try again later."⟩
    ⟨"GET", []⟩ 0 [] "boom" rfl).1

/-- If the head of `l` satisfies `p` and `p` implies `q`, the head satisfies
`q`. -/
theorem headIs_mono {p q : Char → Bool} (hpq : ∀ v, p v = true → q v = true) :
    ∀ l, headIs p l = true → headIs q l = true
  | [], h => by simp [headIs] at h
  | c :: _, h => hpq c h

/-- A string matching the UUID shape for one version test also matches it for
any weaker version test. -/
theorem uuidShape_mono {p q : Char → Bool} (hpq : ∀ v, p v = true → q v = true)
    (s : String) (h : uuidShape p s = true) : uuidShape q s = true := by
  unfold uuidShape at h ⊢
  generalize hl : s.data.splitOn '-' = l at h ⊢
  rcases l with _ | ⟨a, rest⟩
  · simp at h
  rcases rest with _ | ⟨b, rest⟩
  · simp at h
  rcases rest with _ | ⟨c, rest⟩
  · simp at h
  rcases rest with _ | ⟨d, rest⟩
  · simp at h
  rcases rest with _ | ⟨e, rest⟩
  · simp at h
  rcases rest with _ | ⟨f, t⟩
  · simp only [Bool.and_eq_true] at h ⊢
    obtain ⟨⟨⟨⟨⟨⟨pre, hv⟩, h8⟩, h9⟩, h10⟩, h11⟩, h12⟩ := h
    exact ⟨⟨⟨⟨⟨⟨pre, headIs_mono hpq c hv⟩, h8⟩, h9⟩, h10⟩, h11⟩, h12⟩
  · simp at h

/-- C8: `validators.email` returns normally on `"a@b.co"` and raises a
`VALIDATION_ERROR` `ApplicationError` on `"not-an-email"`; `validators.uuid`
returns normally on every well-formed RFC-4122 v4 string and raises a
`VALIDATION_ERROR` `ApplicationError` on `"1234"`; each failure's details
carry the offending field name, and success returns no value (`Unit`). -/
theorem c8_validators (fieldName : String) (now : Int) :
    validators.email "a@b.co" fieldName now = Except.ok () ∧
    (validators.email "not-an-email" fieldName now =
        Except.error ⟨.VALIDATION_ERROR,
          fieldName ++ " must be a valid email address",
          some (.fieldValue fieldName "not-an-email"), now⟩ ∧
      (ErrDetails.fieldValue fieldName "not-an-email").fieldName = some fieldName) ∧
    (∀ s, isRfc4122v4 s = true → validators.uuid s fieldName now = Except.ok ()) ∧
    (validators.uuid "1234" fieldName now =
        Except.error ⟨.VALIDATION_ERROR, fieldName ++ " must be a valid UUID",
          some (.fieldValue fieldName "1234"), now⟩ ∧
      (ErrDetails.fieldValue fieldName "1234").fieldName = some fieldName) := by
  refine ⟨?_, ⟨?_, rfl⟩, ?_, ⟨?_, rfl⟩⟩
  · simp [validators.email, show emailRegexTest "a@b.co" = true from by decide]
  · simp [validators.email,
      show emailRegexTest "not-an-email" = false from by decide]
  · intro s hs
    have hu : uuidRegexTest s = true := by
      refine uuidShape_mono ?_ s hs
      intro v hv
      have : v = '4' := by simpa using hv
      simp [this]
    simp [validators.uuid, hu]
  · simp [validators.uuid, show uuidRegexTest "1234" = false from by decide]

/-- C8 witness: the theorem applied at the field names `"email"` and `"id"`,
with the v4 part instantiated at a concrete v4 UUID. -/
theorem c8_validators_witness :
    validators.email "a@b.co" "email" 0 = Except.ok () ∧
    validators.uuid "f47ac10b-58cc-4372-a567-0e02b2c3d479" "id" 0 =
      Except.ok () :=
  ⟨(c8_validators "email" 0).1,
    (c8_validators "id" 0).2.2.1 "f47ac10b-58cc-4372-a567-0e02b2c3d479"
      (by decide)⟩

/-- C7: for the sliding-window limiter, an admission recorded at `t_i` counts
against a check at `now` exactly when `now - t_i < windowMs` (the retained
list is the filter by that predicate); the check is admitted exactly when
fewer than `maxRequests` retained admissions remain, and on admission `now`
is appended to the key's list (which is written back); on rejection the store
is unchanged. -/
theorem c7_sliding_window (cfg : RateLimitConfig) (request : Request)
    (key : String) (ts : List Int) (now : Int) (st : SlidingStore)
    (hk : cfg.keyGenerator request = Except.ok key)
    (hst : List.lookup key st = some ts) :
    SlidingWindowRateLimiter.check cfg request now st =
      (let kept := ts.filter (fun t => decide (now - t < cfg.windowMs))
       if kept.length < cfg.maxRequests then
         (Except.ok ⟨true, cfg.maxRequests - kept.length - 1⟩,
           slidingSet st key (kept ++ [now]))
       else
         (Except.ok ⟨false, cfg.maxRequests - kept.length⟩, st)) := by
  have hfil : ∀ l : List Int, l.filter (fun t => decide (now - cfg.windowMs < t)) =
      l.filter (fun t => decide (now - t < cfg.windowMs)) := by
    intro l
    induction l with
    | nil => rfl
    | cons a l ih =>
      have hd : decide (now - cfg.windowMs < a) = decide (now - a < cfg.windowMs) :=
        decide_eq_decide.mpr (by omega)
      simp only [List.filter_cons, hd, ih]
  simp only [SlidingWindowRateLimiter.check, hk, hst, Option.getD_some]
  rw [hfil ts]
  by_cases hlt :
      (ts.filter (fun t => decide (now - t < cfg.windowMs))).length < cfg.maxRequests
  · simp [hlt]
  · simp [hlt]

/-- Configuration for the C7 witness: window 100ms, max 2 per window, fixed
key `"k"`. -/
def cfg7 : RateLimitConfig :=
  ⟨100, 2, false, false, fun _ => Except.ok "k",
    "Too many requests, please try again later."⟩

/-- Request for the C7 witness. -/
def req7 : Request := ⟨"GET", []⟩

/-- Sliding store for the C7 witness: admissions at 0, 40 and 10. -/
def st7 : SlidingStore := [("k", [0, 40, 10])]

/-- C7 witness: at time 120 only the admission at 40 still counts, the check
is admitted, and 120 is appended. -/
theorem c7_sliding_window_witness :
    SlidingWindowRateLimiter.check cfg7 req7 120 st7 =
      (Except.ok ⟨true, 0⟩, [("k", [40, 120])]) := by
  have h := c7_sliding_window cfg7 req7 "k" [0, 40, 10] 120 st7 rfl rfl
  rw [h]
  rfl

/-- Iterated `RateLimiter.check` at a fixed time, keeping only the store (the
sequence of checks one key performs within one window). -/
def checkIter (cfg : RateLimitConfig) (request : Request) (now : Int) :
    Nat → Store → Store
  | 0, st => st
  | n + 1, st => checkIter cfg request now n (RateLimiter.check cfg request now st).2

/-- One admitted check on a singleton store whose record has the current
window: the count increments in place. -/
theorem check_singleton_admitted (cfg : RateLimitConfig) (request : Request)
    (key : String) (now : Int) (c : Nat)
    (hk : cfg.keyGenerator request = Except.ok key)
    (hw : 0 ≤ cfg.windowMs) (hc : c < cfg.maxRequests) :
    RateLimiter.check cfg request now [(key, ⟨c, now + cfg.windowMs⟩)] =
      (Except.ok ⟨true, cfg.maxRequests - c - 1, now + cfg.windowMs⟩,
        [(key, ⟨c + 1, now + cfg.windowMs⟩)]) := by
  have h1 : ¬ (now + cfg.windowMs < now) := by omega
  simp [RateLimiter.check, cleanup, storeGet, storeSet, List.lookup, hk, h1, hc]

/-- One check on the empty store: a fresh window with count 0 is created and
(when `maxRequests > 0`) the request is admitted with count written as 1. -/
theorem check_empty_store (cfg : RateLimitConfig) (request : Request)
    (key : String) (now : Int)
    (hk : cfg.keyGenerator request = Except.ok key)
    (hmax : 0 < cfg.maxRequests) :
    RateLimiter.check cfg request now [] =
      (Except.ok ⟨true, cfg.maxRequests - 1, now + cfg.windowMs⟩,
        [(key, ⟨1, now + cfg.windowMs⟩)]) := by
  simp [RateLimiter.check, cleanup, storeGet, storeSet, List.lookup, hk, hmax]

/-- Iterating admitted checks adds one to the stored count per check. -/
theorem checkIter_singleton (cfg : RateLimitConfig) (request : Request)
    (key : String) (now : Int)
    (hk : cfg.keyGenerator request = Except.ok key) (hw : 0 ≤ cfg.windowMs) :
    ∀ j c, c + j ≤ cfg.maxRequests →
      checkIter cfg request now j [(key, ⟨c, now + cfg.windowMs⟩)] =
        [(key, ⟨c + j, now + cfg.windowMs⟩)] := by
  intro j
  induction j with
  | zero => intro c h; simp [checkIter]
  | succ n ih =>
    intro c h
    rw [checkIter, check_singleton_admitted cfg request key now c hk hw (by omega)]
    have hr := ih (c + 1) (by omega)
    have hcc : c + 1 + n = c + (n + 1) := by omega
    rw [hcc] at hr
    exact hr

/-- Performing `j ≤ maxRequests` checks from an empty store leave the key's count at
exactly `j` (for `j > 0`; the store is untouched at `j = 0`). -/
theorem checkIter_empty (cfg : RateLimitConfig) (request : Request)
    (key : String) (now : Int)
    (hk : cfg.keyGenerator request = Except.ok key) (hw : 0 ≤ cfg.windowMs)
    (hmax : 0 < cfg.maxRequests) :
    ∀ j, j ≤ cfg.maxRequests → 0 < j →
      checkIter cfg request now j [] = [(key, ⟨j, now + cfg.windowMs⟩)] := by
  intro j hj hj0
  rcases j with _ | n
  · omega
  rw [checkIter, (check_empty_store cfg request key now hk hmax :
    RateLimiter.check cfg request now [] = _)]
  have hr := checkIter_singleton cfg request key now hk hw n 1 (by omega)
  have hcc : 1 + n = n + 1 := by omega
  rw [hcc] at hr
  exact hr

/-- C3: for a key of the fixed-window limiter (admitted checks all performed
at time `now`, so within one window), each of the first `maxRequests` checks
is admitted and increments the stored count by one, leaving it at exactly
`maxRequests`; any further check at a time `t` not later than the stored
`resetTime` is rejected and leaves the record unchanged; and at any `t'`
strictly past the stored `resetTime` a fresh window starts from count 0, so
the check is admitted again with the record reset to count 1 and
`resetTime = t' + windowMs`. -/
theorem c3_fixed_window (cfg : RateLimitConfig) (request : Request)
    (key : String) (now t t' : Int)
    (hk : cfg.keyGenerator request = Except.ok key)
    (hw : 0 ≤ cfg.windowMs) (hmax : 0 < cfg.maxRequests)
    (ht : t ≤ now + cfg.windowMs) (ht' : now + cfg.windowMs < t') :
    (∀ j, j < cfg.maxRequests →
      (RateLimiter.check cfg request now (checkIter cfg request now j [])).1 =
        Except.ok ⟨true, cfg.maxRequests - j - 1, now + cfg.windowMs⟩) ∧
    checkIter cfg request now cfg.maxRequests [] =
      [(key, ⟨cfg.maxRequests, now + cfg.windowMs⟩)] ∧
    RateLimiter.check cfg request t
        [(key, ⟨cfg.maxRequests, now + cfg.windowMs⟩)] =
      (Except.ok ⟨false, 0, now + cfg.windowMs⟩,
        [(key, ⟨cfg.maxRequests, now + cfg.windowMs⟩)]) ∧
    RateLimiter.check cfg request t'
        [(key, ⟨cfg.maxRequests, now + cfg.windowMs⟩)] =
      (Except.ok ⟨true, cfg.maxRequests - 1, t' + cfg.windowMs⟩,
        [(key, ⟨1, t' + cfg.windowMs⟩)]) := by
  refine ⟨?_, ?_, ?_, ?_⟩
  · intro j hj
    rcases Nat.eq_zero_or_pos j with hj0 | hj0
    · subst hj0
      have hce := check_empty_store cfg request key now hk hmax
      simp [checkIter, hce]
    · rw [checkIter_empty cfg request key now hk hw hmax j (by omega) hj0,
        check_singleton_admitted cfg request key now j hk hw hj]
  · exact checkIter_empty cfg request key now hk hw hmax cfg.maxRequests
      (by omega) hmax
  · have h1 : ¬ (now + cfg.windowMs < t) := by omega
    have h2 : ¬ (cfg.maxRequests < cfg.maxRequests) := by omega
    simp [RateLimiter.check, cleanup, storeGet, List.lookup, hk, h1, h2]
  · have h1 : now + cfg.windowMs < t' := ht'
    simp [RateLimiter.check, cleanup, storeGet, storeSet, List.lookup, hk, h1, hmax]

/-- Configuration for the C3 witness: window 60000ms, max 3 per window. -/
def cfg3 : RateLimitConfig :=
  ⟨60000, 3, false, false, fun _ => Except.ok "rate_limit:1.2.3.4",
    "Too many requests, please try again later."⟩

/-- Request for the C3 witness. -/
def req3 : Request := ⟨"GET", []⟩

/-- C3 witness: the theorem instantiated at `now = 0`, a rejected check at
`t = 60000` and a fresh window at `t' = 60001` (the first admitted check
singled out from the universally quantified part). -/
theorem c3_fixed_window_witness :
    (RateLimiter.check cfg3 req3 0 (checkIter cfg3 req3 0 0 [])).1 =
      Except.ok ⟨true, 2, 60000⟩ ∧
    checkIter cfg3 req3 0 3 [] = [("rate_limit:1.2.3.4", ⟨3, 60000⟩)] ∧
    RateLimiter.check cfg3 req3 60000 [("rate_limit:1.2.3.4", ⟨3, 60000⟩)] =
      (Except.ok ⟨false, 0, 60000⟩, [("rate_limit:1.2.3.4", ⟨3, 60000⟩)]) ∧
    RateLimiter.check cfg3 req3 60001 [("rate_limit:1.2.3.4", ⟨3, 60000⟩)] =
      (Except.ok ⟨true, 2, 120001⟩, [("rate_limit:1.2.3.4", ⟨1, 120001⟩)]) := by
  have h := c3_fixed_window cfg3 req3 "rate_limit:1.2.3.4" 0 60000 60001 rfl
    (by decide) (by decide) (by decide) (by decide)
  exact ⟨h.1 0 (by decide), h.2.1, h.2.2.1, h.2.2.2⟩

/-- Limiter configuration for the C1 evidence: 100 requests per 60000ms. -/
def cfg1 : RateLimitConfig :=
  ⟨60000, 100, false, false, fun _ => Except.ok "rate_limit:1.2.3.4",
    "Too many requests, please try again later."⟩

/-- Request for the C1 evidence. -/
def req1 : Request := ⟨"GET", []⟩

/-- Domain handler for the C1 evidence, returning a distinctive 201. -/
def handler1 : Request → HandlerContext → Except Thrown Response :=
  fun _ _ => Except.ok ⟨201, Body.text "created", []⟩

/-- Authenticated user for the C1 evidence. -/
def user1 : SessionUser := ⟨"u1", "u1@example.com", "U One", "img"⟩

/-- Wrapper options for the C1 evidence: method allow list `["GET"]`,
authentication required, and the `createRateLimit` middleware over `cfg1`
with an empty store at time 0. -/
def opts1 : HandlerOptions :=
  ⟨true, some ["GET"], some (fun r => (createRateLimit cfg1 r 0 []).1)⟩

/-- C1 evidence: the very first check for the key is admitted
(`allowed = true`, 99 remaining), yet the wrapped handler returns the
middleware's `new Response(null, {headers})` — status 200, empty body — and
never invokes the domain handler, whose distinctive 201 response is not what
the wrapper returns, even though the method passes and a valid session is
present. -/
theorem c1_admitted_request_bypasses_handler :
    (RateLimiter.check cfg1 req1 0 []).1 = Except.ok ⟨true, 99, 60000⟩ ∧
    createApiHandler handler1 opts1 req1 none (some user1) "req_1" 0 =
      ⟨200, Body.empty, RateLimiter.getHeaders cfg1 99 60000⟩ ∧
    handler1 req1 ⟨none, some user1⟩ =
      Except.ok ⟨201, Body.text "created", []⟩ ∧
    createApiHandler handler1 opts1 req1 none (some user1) "req_1" 0 ≠
      ⟨201, Body.text "created", []⟩ := by
  refine ⟨rfl, rfl, rfl, by decide⟩

/-- The `ApplicationError` thrown in the C2 counterexample. -/
def appErr2 : ApplicationError := ⟨.RECORD_NOT_FOUND, "Chat not found", none, 5⟩

/-- Domain handler for the C2 counterexample: throws `appErr2`. -/
def handler2 : Request → HandlerContext → Except Thrown Response :=
  fun _ _ => Except.error (.appErr appErr2)

/-- Wrapper options for the C2 counterexample: no auth, no method list, no
rate limiter. -/
def opts2 : HandlerOptions := ⟨false, none, none⟩

/-- Request for the C2 counterexample. -/
def req2 : Request := ⟨"GET", []⟩

/-- C2 counterexample: a typed `RECORD_NOT_FOUND` error thrown by the domain
handler is re-wrapped by the wrapper's own catch into a 500
`INTERNAL_SERVER_ERROR` envelope (carrying the request id), whereas the Error
Responder's conversion of the same error has status 404 and carries the
error's own code — so the wrapped handler does not return the responder's
conversion. -/
theorem c2_counterexample :
    createApiHandler handler2 opts2 req2 none none "req_2" 9 =
      createErrorResponse "INTERNAL_SERVER_ERROR" "Chat not found"
        (some (.reqId "req_2")) 500 9 ∧
    (createApiHandler handler2 opts2 req2 none none "req_2" 9).status = 500 ∧
    (handleApiError (Thrown.appErr appErr2) 9).status = 404 ∧
    createApiHandler handler2 opts2 req2 none none "req_2" 9 ≠
      handleApiError (Thrown.appErr appErr2) 9 := by
  refine ⟨rfl, rfl, rfl, by decide⟩

/-- C2 (amended): whatever the domain handler throws is caught by the
wrapper's own catch (the Error Responder `handleApiError` is not invoked): a
thrown `Response` is returned as-is (the escape hatch); a thrown
`ApplicationError` — being an `Error` — is re-wrapped into a 500
`INTERNAL_SERVER_ERROR` envelope carrying only its message and the request
id, losing its kind and table status; any other thrown `Error` gets the same
500 envelope with its message; a non-`Error` value gets the generic 500.
Hypotheses: the method check passes, the rate-limit step yields no response,
and auth (when required) resolves. -/
theorem c2_wrapper_rewraps_typed_errors
    (options : HandlerOptions) (request : Request)
    (params : Option (List (String × String))) (session : Option SessionUser)
    (requestId : String) (now : Int) (t : Thrown)
    (handler : Request → HandlerContext → Except Thrown Response)
    (hm : ∀ ms, options.allowedMethods = some ms →
      ms.contains request.method = true)
    (hrl : ∀ rl, options.rateLimiter = some rl → rl request = none)
    (hau : options.requireAuth = false ∨ session.isSome = true)
    (hh : ∀ ctx, handler request ctx = Except.error t) :
    createApiHandler handler options request params session requestId now =
      (match t with
       | .resp r => r
       | .appErr e => createErrorResponse "INTERNAL_SERVER_ERROR" e.message
           (some (.reqId requestId)) 500 now
       | .err m => createErrorResponse "INTERNAL_SERVER_ERROR" m
           (some (.reqId requestId)) 500 now
       | .other => createErrorResponse "INTERNAL_SERVER_ERROR"
           "An unexpected error occurred" (some (.reqId requestId)) 500 now) := by
  obtain ⟨ra, ams, rl⟩ := options
  simp only at hm hrl hau
  rcases ams with _ | ms <;> rcases rl with _ | rlf <;> rcases ra with _ | _
  all_goals try have hmem : request.method ∈ ms := by simpa using hm ms rfl
  all_goals try have hrlf : rlf request = none := hrl rlf rfl
  all_goals first
    | (have hsome : session.isSome = true :=
        hau.resolve_left (fun h => Bool.noConfusion h)
       obtain ⟨u, hu⟩ := Option.isSome_iff_exists.mp hsome
       subst hu
       cases t <;>
         simp [createApiHandler, validateMethod, requireAuth,
           getAuthenticatedUser, hh, *])
    | (cases t <;>
        simp [createApiHandler, validateMethod, requireAuth,
          getAuthenticatedUser, hh, *])

/-- C2 witness for the amended theorem: an always-throwing handler with a
typed `DUPLICATE_ENTRY` error under empty options. -/
theorem c2_wrapper_rewraps_typed_errors_witness :
    createApiHandler
        (fun _ _ => Except.error
          (.appErr ⟨.DUPLICATE_ENTRY, "title exists", none, 3⟩))
        ⟨false, none, none⟩ ⟨"POST", []⟩ none none "req_w2" 11 =
      createErrorResponse "INTERNAL_SERVER_ERROR" "title exists"
        (some (.reqId "req_w2")) 500 11 :=
  c2_wrapper_rewraps_typed_errors ⟨false, none, none⟩ ⟨"POST", []⟩ none none
    "req_w2" 11 (.appErr ⟨.DUPLICATE_ENTRY, "title exists", none, 3⟩)
    (fun _ _ => Except.error
      (.appErr ⟨.DUPLICATE_ENTRY, "title exists", none, 3⟩))
    (fun ms h => by cases h) (fun rl h => by cases h) (Or.inl rfl)
    (fun _ => rfl)

/-- Limiter configuration for the C9 counterexample. -/
def cfg9 : RateLimitConfig :=
  ⟨60000, 100, false, false, fun _ => Except.ok "rate_limit:9.9.9.9",
    "Too many requests, please try again later."⟩

/-- Request for the C9 counterexample. -/
def req9 : Request := ⟨"GET", []⟩

/-- Domain handler for the C9 counterexample. -/
def handler9 : Request → HandlerContext → Except Thrown Response :=
  fun _ _ => Except.ok ⟨200, Body.text "chats", []⟩

/-- Options for the C9 counterexample: `requireAuth = true` together with a
configured (admitting) rate-limit middleware. -/
def opts9 : HandlerOptions :=
  ⟨true, some ["GET"], some (fun r => (createRateLimit cfg9 r 0 []).1)⟩

/-- C9 counterexample: with `requireAuth = true`, no session, and a
configured rate limiter whose check admits, the wrapped handler returns the
middleware's empty 200 header response, not a 401 `UNAUTHORIZED` envelope —
identity resolution is never reached. -/
theorem c9_counterexample :
    createApiHandler handler9 opts9 req9 none none "req_9" 0 =
      ⟨200, Body.empty, RateLimiter.getHeaders cfg9 99 60000⟩ ∧
    (createApiHandler handler9 opts9 req9 none none "req_9" 0).status ≠ 401 :=
  ⟨rfl, by decide⟩

/-- C9 (amended): provided the method check passes and the rate-limiting
step yields no response (no limiter configured, or its middleware returns
`null`), a wrapper with `requireAuth = true` given a request whose identity
resolution yields no identity returns the 401 envelope whose `error.code` is
`"UNAUTHORIZED"`, independently of the domain handler (which is therefore
never invoked). -/
theorem c9_unauthenticated_401
    (handler : Request → HandlerContext → Except Thrown Response)
    (options : HandlerOptions) (request : Request)
    (params : Option (List (String × String))) (requestId : String) (now : Int)
    (hm : ∀ ms, options.allowedMethods = some ms →
      ms.contains request.method = true)
    (hrl : ∀ rl, options.rateLimiter = some rl → rl request = none)
    (hra : options.requireAuth = true) :
    createApiHandler handler options request params none requestId now =
      createErrorResponse "UNAUTHORIZED" "Authentication required"
        (some .nullD) 401 now ∧
    (createErrorResponse "UNAUTHORIZED" "Authentication required"
        (some .nullD) 401 now).status = 401 ∧
    (createErrorResponse "UNAUTHORIZED" "Authentication required"
        (some .nullD) 401 now).body =
      Body.apiEnvelope ⟨false,
        some ⟨"UNAUTHORIZED", "Authentication required", some .nullD⟩, now⟩ := by
  obtain ⟨ra, ams, rl⟩ := options
  simp only at hm hrl hra
  subst hra
  rcases ams with _ | ms <;> rcases rl with _ | rlf
  all_goals try have hmem : request.method ∈ ms := by simpa using hm ms rfl
  all_goals try have hrlf : rlf request = none := hrl rlf rfl
  all_goals exact ⟨by simp [createApiHandler, validateMethod, requireAuth,
    getAuthenticatedUser, *], rfl, rfl⟩

/-- C9 witness for the amended theorem: empty options apart from
`requireAuth = true`, no session. -/
theorem c9_unauthenticated_401_witness :
    createApiHandler (fun _ _ => Except.ok ⟨200, Body.text "chats", []⟩)
        ⟨true, none, none⟩ ⟨"GET", []⟩ none none "req_w9" 4 =
      createErrorResponse "UNAUTHORIZED" "Authentication required"
        (some .nullD) 401 4 :=
  (c9_unauthenticated_401 (fun _ _ => Except.ok ⟨200, Body.text "chats", []⟩)
    ⟨true, none, none⟩ ⟨"GET", []⟩ none "req_w9" 4
    (fun _ h => by cases h) (fun _ h => by cases h) rfl).1
